import Mathlib

/-!
Verification development for the RSVP guest-list backend.

The definitions below are a shallow embedding of the Python sources:
  backend/app/utils/phone.py          (normalize_phone)
  backend/app/crud/guests_crud.py     (_norm_name, _name_matches_flexibly,
                                       find_guest_for_magic)
  backend/app/services/import_service.py  (the CSV reconciliation engine)
  backend/utils/invite.py             (normalize_invite_type)

Python strings are Lean `String`s; Python `None` for optional text fields is
modelled as the empty string (the code only ever tests their truthiness or
feeds them to `or ""`); Python dicts keyed by strings are association lists
with overwrite-on-insert, matching dict assignment; database rows are a
`List Guest` carried in a `DB` state together with the next fresh id.
-/

namespace RSVP

/-- Embeds `app.utils.phone.normalize_phone`: strip the string, then delete
every non-digit character.  Since whitespace is not a digit, stripping first
does not change the result: the function keeps exactly the digits. -/
def normalize_phone (s : String) : String :=
  String.mk (s.toList.filter Char.isDigit)

/-- One step of the NFKD-decompose-then-drop-combining-marks pass of
`_norm_name`, restricted to the Latin letters the guest list uses: each
accented Latin-1 letter decomposes into its base letter followed by a
combining mark, and the mark is dropped, so the net effect maps the accented
letter to its base letter; every other character is left alone. -/
def stripDiacritic (c : Char) : Char :=
  match c with
  | 'á' => 'a' | 'é' => 'e' | 'í' => 'i' | 'ó' => 'o' | 'ú' => 'u'
  | 'à' => 'a' | 'è' => 'e' | 'ì' => 'i' | 'ò' => 'o' | 'ù' => 'u'
  | 'ä' => 'a' | 'ë' => 'e' | 'ï' => 'i' | 'ö' => 'o' | 'ü' => 'u'
  | 'â' => 'a' | 'ê' => 'e' | 'î' => 'i' | 'ô' => 'o' | 'û' => 'u'
  | 'ã' => 'a' | 'õ' => 'o' | 'ñ' => 'n' | 'ç' => 'c'
  | 'Á' => 'A' | 'É' => 'E' | 'Í' => 'I' | 'Ó' => 'O' | 'Ú' => 'U'
  | 'À' => 'A' | 'È' => 'E' | 'Ì' => 'I' | 'Ò' => 'O' | 'Ù' => 'U'
  | 'Ä' => 'A' | 'Ë' => 'E' | 'Ï' => 'I' | 'Ö' => 'O' | 'Ü' => 'U'
  | 'Â' => 'A' | 'Ê' => 'E' | 'Î' => 'I' | 'Ô' => 'O' | 'Û' => 'U'
  | 'Ã' => 'A' | 'Õ' => 'O' | 'Ñ' => 'N' | 'Ç' => 'C'
  | _ => c

/-- Python `str.strip()`: drop leading and trailing whitespace.  (Defined
over the character list so that it evaluates inside the kernel.) -/
def pyStrip (s : String) : String :=
  String.mk (((s.toList.dropWhile Char.isWhitespace).reverse.dropWhile Char.isWhitespace).reverse)

/-- Python `str.lower()` on the ASCII repertoire (the code lower-cases
header values, emails, enum tokens and already-de-accented names). -/
def pyLower (s : String) : String :=
  String.mk (s.toList.map Char.toLower)

/-- Python `str.upper()` on the ASCII repertoire (guest codes). -/
def pyUpper (s : String) : String :=
  String.mk (s.toList.map Char.toUpper)

/-- The worker of `pySplit`: consume characters, `acc` holding the current
word reversed. -/
def pySplitAux : List Char → List Char → List String
  | [], acc => if acc.isEmpty then [] else [String.mk acc.reverse]
  | c :: cs, acc =>
    if c.isWhitespace then
      if acc.isEmpty then pySplitAux cs [] else String.mk acc.reverse :: pySplitAux cs []
    else pySplitAux cs (c :: acc)

/-- Python `str.split()` with no separator: split on whitespace runs and
drop the empty pieces. -/
def pySplit (s : String) : List String :=
  pySplitAux s.toList []

/-- `re.sub(r"\s+", " ", txt)` applied to an already-stripped string:
collapse every whitespace run to a single space. -/
def collapseSpaces (s : String) : String :=
  " ".intercalate (pySplit s)

/-- Embeds `guests_crud._norm_name`: trim, NFKD-decompose and drop combining
marks (`stripDiacritic` on the Latin repertoire), collapse whitespace, and
casefold (for the Latin repertoire casefold agrees with `lower()`). -/
def norm_name (s : String) : String :=
  pyLower (collapseSpaces (String.mk ((pyStrip s).toList.map stripDiacritic)))

/-- Embeds `guests_crud._name_matches_flexibly`: keep only the tokens longer
than two characters on both sides; if either side is left empty there is no
match; otherwise match exactly when the two token sets intersect. -/
def name_matches_flexibly (inputNameNorm dbNameNorm : String) : Bool :=
  let inputTokens := (pySplit inputNameNorm).filter (fun t => 2 < t.length)
  let dbTokens := (pySplit dbNameNorm).filter (fun t => 2 < t.length)
  if inputTokens.isEmpty || dbTokens.isEmpty then false
  else inputTokens.any (fun t => dbTokens.contains t)

/-- A guest row of the store.  Optional text columns hold `""` for SQL NULL;
`id` is an `Int` because the import service uses `-1` as an index
placeholder.  The RSVP block (`confirmed` .. `companions`) is the protected
state the reconciliation engine must not touch; companions are kept as their
list of names, which is all the reconciliation claims need. -/
structure Guest where
  id : Int
  guest_code : String
  full_name : String
  email : String
  phone : String
  language : String
  side : String
  relationship : String
  group_id : String
  max_accomp : Int
  invite_type : String
  confirmed : Bool
  confirmed_at : Option Nat
  allergies : String
  notes : String
  num_adults : Int
  num_children : Int
  companions : List String
deriving Repr, DecidableEq

/-- The SQL-side phone cleaning of `find_guest_for_magic`: `func.replace`
deletes spaces, dashes, dots, parentheses and the plus sign (and nothing
else, unlike `normalize_phone`). -/
def sqlStripPhoneSymbols (s : String) : String :=
  String.mk (s.toList.filter (fun c =>
    !((c = ' ') || (c = '-') || (c = '.') || (c = '(') || (c = ')') || (c = '+'))))

/-- `s[-n:]` in Python, `substr(x, -n)` / `right(x, n)` in SQL: the last
`n` characters, or the whole string when it is shorter. -/
def strTakeRight (s : String) (n : Nat) : String :=
  String.mk (s.toList.drop (s.toList.length - n))

/-- Embeds `guests_crud.find_guest_for_magic` over a store snapshot.
The email argument is only logged by the source (explicitly advisory,
never part of the match decision), so it does not enter the result.
Candidate retrieval order is store order, as for an unordered table scan. -/
def find_guest_for_magic (guests : List Guest) (full_name phone_last4 _email : String) :
    Option Guest :=
  let fullNameNorm := norm_name full_name
  let last4Digits := normalize_phone phone_last4
  let last4 := strTakeRight last4Digits 4
  if last4.length ≠ 4 then
    none
  else
    let candidates := guests.filter (fun g => strTakeRight (sqlStripPhoneSymbols g.phone) 4 = last4)
    candidates.find? (fun g => name_matches_flexibly fullNameNorm (norm_name g.full_name))

/-! ## The reconciliation engine (`app/services/import_service.py`)

Error messages are kept in ASCII (accents dropped); every claim identifies
errors by their `code` field, never by the message text. -/

/-- `ADD_ONLY | UPSERT | SYNC | REPLACE`. -/
inductive import_mode where
  | add_only
  | upsert
  | sync
  | replace
deriving Repr, DecidableEq

/-- The `.value` of the Python string-enum member. -/
def import_mode.value : import_mode → String
  | .add_only => "ADD_ONLY"
  | .upsert => "UPSERT"
  | .sync => "SYNC"
  | .replace => "REPLACE"

/-- One entry of the report error list (`import_error` dataclass). -/
structure import_error where
  row_number : Nat
  field : String
  code : String
  message : String
  value : String
deriving Repr, DecidableEq

/-- The outcome report (`import_report` dataclass). -/
structure import_report where
  mode : String
  dry_run : Bool
  created_count : Nat
  updated_count : Nat
  skipped_count : Nat
  rejected_count : Nat
  errors : List import_error
deriving Repr, DecidableEq

/-- `report.errors.append(...)` followed by `report.rejected_count += 1`. -/
def add_error (r : import_report) (row_number : Nat) (field code message value : String) :
    import_report :=
  { r with
    rejected_count := r.rejected_count + 1
    errors := r.errors ++ [{ row_number, field, code, message, value }] }

/-- A parsed CSV record as `csv.DictReader` yields it: header name to cell. -/
abbrev Row := List (String × String)

/-- `k in row` / `row[k]` on a record. -/
def rowGet (row : Row) (k : String) : Option String :=
  (row.find? (fun p => p.1 = k)).map (fun p => p.2)

/-- Embeds `_get_first`: the first listed header present in the record whose
stripped value is non-empty, stripped; `""` when none is. -/
def get_first (row : Row) : List String → String
  | [] => ""
  | k :: ks =>
    match rowGet row k with
    | some v => if pyStrip v ≠ "" then pyStrip v else get_first row ks
    | none => get_first row ks

/-- Embeds `_normalize_email`: strip, lower-case. -/
def normalize_email (email : String) : String :=
  pyLower (pyStrip email)

/-- Embeds `_parse_int`: strip; empty gives the default, as does anything
`int()` rejects.  (`String.toInt?` accepts the sign-and-digits forms the
claims exercise.) -/
def parse_int (value : String) (default : Int) : Int :=
  let v := pyStrip value
  if v = "" then default else (v.toInt?).getD default

/-- Embeds `utils.invite.normalize_invite_type`. -/
def normalize_invite_type (raw : String) : String :=
  let val := pyLower (pyStrip raw)
  if val = "full" then "full"
  else if val = "party" then "party"
  else if val = "ceremony" then "full"
  else "party"

/-- The mapped dict `_map_row_fields` returns. -/
structure RowData where
  full_name : String
  email : String
  phone_raw : String
  phone : String
  language : String
  side : String
  relationship : String
  group_id : String
  max_accomp : Int
  invite_type : String
  guest_code : String
deriving Repr, DecidableEq

/-- Embeds `_map_row_fields`: header-synonym resolution, email and phone
normalization, and the clamp of a negative companion allowance to 0. -/
def map_row_fields (row : Row) : RowData :=
  let full_name := get_first row ["full_name", "nombre", "nombre_completo", "Nombre Completo", "Nombre"]
  let email := get_first row ["email", "correo", "correo_electronico", "Email"]
  let phone := get_first row ["phone", "telefono", "teléfono", "Teléfono", "Phone", "movil", "Celular"]
  let language := get_first row ["language", "idioma", "Idioma"]
  let side := get_first row ["side", "lado", "Lado"]
  let relationship := get_first row ["relationship", "relacion", "relación", "Relationship", "Relacion"]
  let group_id := get_first row ["group_id", "grupo", "Group ID", "group", "Group"]
  let max_accomp_raw := get_first row ["max_accomp", "max_acomp", "max_acompanhantes", "Máx. Acomp", "Max. Acomp"]
  let max_accomp0 := parse_int max_accomp_raw 0
  let max_accomp := if max_accomp0 < 0 then 0 else max_accomp0
  let invite_type := get_first row ["invite_type", "tipo_invitacion", "tipo_invitación", "Tipo Invitación"]
  let guest_code := get_first row ["guest_code", "codigo", "code"]
  { full_name
    email := normalize_email email
    phone_raw := phone
    phone := normalize_phone phone
    language, side, relationship, group_id, max_accomp, invite_type, guest_code }

/-- A string-keyed id map with Python dict semantics: assignment overwrites
the value of an existing key, otherwise appends. -/
abbrev Idx := List (String × Int)

/-- `m[k] = v`. -/
def idxInsert (m : Idx) (k : String) (v : Int) : Idx :=
  if m.any (fun p => p.1 = k) then m.map (fun p => if p.1 = k then (k, v) else p)
  else m ++ [(k, v)]

/-- `m.get(k)`. -/
def idxFind (m : Idx) (k : String) : Option Int :=
  (m.find? (fun p => p.1 = k)).map (fun p => p.2)

/-- `k in m`. -/
def idxContains (m : Idx) (k : String) : Bool :=
  (idxFind m k).isSome

/-- The store: the guest table plus the next id the engine will assign (the
autoincrement sequence).  Committing the session is a no-op in this pure
model; row ids are assigned at insertion. -/
structure DB where
  guests : List Guest
  nextId : Int
deriving Repr, DecidableEq

/-- Embeds `_build_db_indexes`: one pass over the table building
code-to-id (upper-cased key), canonical-phone-to-id and
canonical-email-to-id; on duplicate keys the later row wins, as for
repeated dict assignment. -/
def build_db_indexes (db : DB) : Idx × Idx × Idx :=
  db.guests.foldl
    (fun acc g =>
      let codeIdx := if g.guest_code ≠ "" then idxInsert acc.1 (pyUpper (pyStrip g.guest_code)) g.id else acc.1
      let p := normalize_phone g.phone
      let e := normalize_email g.email
      let phoneIdx := if p ≠ "" then idxInsert acc.2.1 p g.id else acc.2.1
      let emailIdx := if e ≠ "" then idxInsert acc.2.2 e g.id else acc.2.2
      (codeIdx, phoneIdx, emailIdx))
    ([], [], [])

/-- One accepted row of the plan. -/
structure plan_item where
  row_number : Nat
  data : RowData
deriving Repr, DecidableEq

/-- The row loop of `_validate_and_plan`: `idx` is the 2-based row number,
`seenPhones`/`seenEmails` the in-file duplicate sets, `planned`/`report` the
accumulators. -/
def validate_loop (rows : List Row) (idx : Nat) (seenPhones seenEmails : List String)
    (planned : List plan_item) (report : import_report) :
    List plan_item × import_report :=
  match rows with
  | [] => (planned, report)
  | raw :: rest =>
    let data := map_row_fields raw
    if data.full_name = "" then
      validate_loop rest (idx + 1) seenPhones seenEmails planned
        (add_error report idx "full_name" "MISSING_NAME" "El nombre es obligatorio." "")
    else if data.phone = "" then
      validate_loop rest (idx + 1) seenPhones seenEmails planned
        (add_error report idx "phone" "INVALID_PHONE" "Telefono vacio o invalido (sin digitos)." data.phone_raw)
    else if data.phone.length < 6 then
      validate_loop rest (idx + 1) seenPhones seenEmails planned
        (add_error report idx "phone" "INVALID_PHONE" "Telefono muy corto (min 6 digitos)." data.phone_raw)
    else if seenPhones.contains data.phone then
      validate_loop rest (idx + 1) seenPhones seenEmails planned
        (add_error report idx "phone" "DUP_PHONE_IN_FILE" "Telefono duplicado en este archivo." data.phone_raw)
    else if data.email ≠ "" && seenEmails.contains data.email then
      validate_loop rest (idx + 1) seenPhones seenEmails planned
        (add_error report idx "email" "DUP_EMAIL_IN_FILE" "Email duplicado en este archivo." data.email)
    else
      validate_loop rest (idx + 1) (seenPhones ++ [data.phone])
        (if data.email ≠ "" then seenEmails ++ [data.email] else seenEmails)
        (planned ++ [{ row_number := idx, data }]) report

/-- Embeds `_validate_and_plan`.  The three database indexes are parameters
of the source function but are never read by it (validation is purely
in-file); they are kept to mirror the signature. -/
def validate_and_plan (rows : List Row) (_db_code_to_id _db_phone_to_id _db_email_to_id : Idx) :
    List plan_item × import_report :=
  validate_loop rows 2 [] [] []
    { mode := "", dry_run := true, created_count := 0, updated_count := 0
      skipped_count := 0, rejected_count := 0, errors := [] }

/-- The member set of `app.models.LanguageEnum`.  Modelled from the spec:
`app/models.py` is not among the source files; the spec says unrecognized
language values fall back to a safe default, the import service defaults to
"en", and the tests exercise members `en` and `es`.  No claim depends on
the exact member set. -/
def LanguageValues : List String := ["en", "es", "ro"]

/-- The language half of `_resolve_enums`: `(language or "en").lower()`,
then the enum constructor with fallback to `en`. -/
def resolve_language (language : String) : String :=
  let langStr := pyLower (if language = "" then "en" else language)
  if LanguageValues.contains langStr then langStr else "en"

/-- The invite-type half of `_resolve_enums`: `normalize_invite_type`
yields "full" or "party", both members of `InviteTypeEnum` (the migration
adds "party"), so the except-fallback to `full` is unreachable. -/
def resolve_invite (invite_type : String) : String :=
  normalize_invite_type invite_type

/-- The side half of `_resolve_enums`: only "bride"/"groom" (lower-cased)
produce a side value; `""` models `side_val = None`. -/
def resolve_side (side : String) : String :=
  let sideStr := pyLower side
  if sideStr = "bride" || sideStr = "groom" then sideStr else ""

/-- The `Guest(...)` constructor call of the create branches: administrative
fields from the row (empty strings model the `x or None` arguments), RSVP
fields at their column defaults for a fresh record. -/
def mk_guest (id : Int) (data : RowData) (finalCode : String) : Guest :=
  { id
    guest_code := finalCode
    full_name := data.full_name
    email := data.email
    phone := data.phone
    language := resolve_language data.language
    side := resolve_side data.side
    relationship := data.relationship
    group_id := data.group_id
    max_accomp := data.max_accomp
    invite_type := resolve_invite data.invite_type
    confirmed := false
    confirmed_at := none
    allergies := ""
    notes := ""
    num_adults := 0
    num_children := 0
    companions := [] }

/-- The matching cascade shared by `_apply_add_only` and `_apply_upsert`:
a non-empty upper-cased CSV code that is indexed wins (and sets
`matched_by_code`), otherwise the canonical phone is tried. -/
def resolve_match (code_to_id phone_to_id : Idx) (data : RowData) : Option Int × Bool :=
  let csvCode := pyUpper (pyStrip data.guest_code)
  match (if csvCode ≠ "" then idxFind code_to_id csvCode else none) with
  | some i => (some i, true)
  | none =>
    match idxFind phone_to_id data.phone with
    | some i => (some i, false)
    | none => (none, false)

/-- The state threaded through one apply loop: the store, the three local
indexes (mutated with `-1` placeholders for in-batch creations), the report
and the code-generation counter.  `_generate_guest_code` draws random
suffixes and retries until unique, so the generated codes are modelled by
an oracle `gen : Nat → String` consulted once per generation. -/
structure apply_state where
  db : DB
  code_to_id : Idx
  phone_to_id : Idx
  email_to_id : Idx
  report : import_report
  genCtr : Nat
deriving Repr, DecidableEq

/-- One iteration of the `_apply_add_only` loop. -/
def add_only_step (gen : Nat → String) (st : apply_state) (item : plan_item) : apply_state :=
  let data := item.data
  let csvCode := pyUpper (pyStrip data.guest_code)
  let (existingId, _) := resolve_match st.code_to_id st.phone_to_id data
  match existingId with
  | some _ =>
    { st with report := { st.report with skipped_count := st.report.skipped_count + 1 } }
  | none =>
    if data.email ≠ "" && idxContains st.email_to_id data.email then
      { st with report := (add_error st.report item.row_number "email" "EMAIL_CONFLICT"
          "Email ya pertenece a otro invitado." data.email) }
    else
      let finalCode := if csvCode ≠ "" then csvCode else gen st.genCtr
      let g := mk_guest st.db.nextId data finalCode
      { st with
        db := { guests := st.db.guests ++ [g], nextId := st.db.nextId + 1 }
        phone_to_id := idxInsert st.phone_to_id data.phone (-1)
        code_to_id := if csvCode ≠ "" then idxInsert st.code_to_id csvCode (-1) else st.code_to_id
        report := { st.report with created_count := st.report.created_count + 1 }
        genCtr := if csvCode ≠ "" then st.genCtr else st.genCtr + 1 }

/-- Embeds `_apply_add_only`: build the indexes, fold the loop, commit. -/
def apply_add_only (gen : Nat → String) (db : DB) (plan : List plan_item)
    (report : import_report) : DB × import_report :=
  let idx := build_db_indexes db
  let st := plan.foldl (add_only_step gen)
    { db, code_to_id := idx.1, phone_to_id := idx.2.1, email_to_id := idx.2.2
      report, genCtr := 0 }
  (st.db, st.report)

/-- The UPDATE branch of `_apply_upsert` as a pure record transformation:
administrative fields only; `full_name`, `language`, `max_accomp` and
`invite_type` unconditionally, `email`/`relationship`/`group_id` only when
the row carries a value, `side` only when the row carries a valid value,
the phone only on a code match with a differing phone; `guest_code` and
every RSVP field are untouched. -/
def upsert_update (data : RowData) (matched_by_code : Bool) (g : Guest) : Guest :=
  { g with
    full_name := data.full_name
    email := if data.email ≠ "" then data.email else g.email
    phone := if matched_by_code && g.phone ≠ data.phone then data.phone else g.phone
    language := resolve_language data.language
    side := if resolve_side data.side ≠ "" then resolve_side data.side else g.side
    relationship := if data.relationship ≠ "" then data.relationship else g.relationship
    group_id := if data.group_id ≠ "" then data.group_id else g.group_id
    max_accomp := data.max_accomp
    invite_type := resolve_invite data.invite_type }

/-- One iteration of the `_apply_upsert` loop. -/
def upsert_step (gen : Nat → String) (st : apply_state) (item : plan_item) : apply_state :=
  let data := item.data
  let csvCode := pyUpper (pyStrip data.guest_code)
  let (existingId, matched_by_code) := resolve_match st.code_to_id st.phone_to_id data
  let emailOwner := if data.email ≠ "" then idxFind st.email_to_id data.email else none
  let conflictMsg : Option String :=
    match emailOwner with
    | none => none
    | some owner =>
      match existingId with
      | none => some "Email ya pertenece a otro invitado."
      | some eid => if owner ≠ eid then some "Email ya pertenece a otro invitado (ID diferente)." else none
  match conflictMsg with
  | some msg =>
    { st with report := add_error st.report item.row_number "email" "EMAIL_CONFLICT" msg data.email }
  | none =>
    match existingId with
    | none =>
      let finalCode := if csvCode ≠ "" then csvCode else gen st.genCtr
      let g := mk_guest st.db.nextId data finalCode
      { st with
        db := { guests := st.db.guests ++ [g], nextId := st.db.nextId + 1 }
        phone_to_id := idxInsert st.phone_to_id data.phone (-1)
        code_to_id := if finalCode ≠ "" then idxInsert st.code_to_id (pyUpper finalCode) (-1) else st.code_to_id
        report := { st.report with created_count := st.report.created_count + 1 }
        genCtr := if csvCode ≠ "" then st.genCtr else st.genCtr + 1 }
    | some eid =>
      match st.db.guests.find? (fun g => g.id = eid) with
      | none => st
      | some g =>
        { st with
          db := { st.db with
            guests := st.db.guests.map (fun h => if h.id = eid then upsert_update data matched_by_code h else h) }
          phone_to_id := if matched_by_code && g.phone ≠ data.phone
            then idxInsert st.phone_to_id data.phone eid else st.phone_to_id
          report := { st.report with updated_count := st.report.updated_count + 1 } }

/-- Embeds `_apply_upsert`. -/
def apply_upsert (gen : Nat → String) (db : DB) (plan : List plan_item)
    (report : import_report) : DB × import_report :=
  let idx := build_db_indexes db
  let st := plan.foldl (upsert_step gen)
    { db, code_to_id := idx.1, phone_to_id := idx.2.1, email_to_id := idx.2.2
      report, genCtr := 0 }
  (st.db, st.report)

/-- Embeds `_apply_sync`: upsert, then delete every row whose normalized
phone is empty or not among the phones of the plan. -/
def apply_sync (gen : Nat → String) (db : DB) (plan : List plan_item)
    (report : import_report) : DB × import_report :=
  let res := apply_upsert gen db plan report
  let phonesInCsv := plan.map (fun item => item.data.phone)
  ({ res.1 with guests := res.1.guests.filter (fun g =>
      let p := normalize_phone g.phone
      p ≠ "" && phonesInCsv.contains p) },
   res.2)

/-- Embeds `_apply_replace`: wipe the guest table (the RSVP-log and
companion tables fall outside the guest-store model; companions are wiped
with their guests), then run `_apply_add_only` on the empty store. -/
def apply_replace (gen : Nat → String) (db : DB) (plan : List plan_item)
    (report : import_report) : DB × import_report :=
  apply_add_only gen { guests := [], nextId := db.nextId } plan report

/-- Whether the destructive-mode gate passes: the source raises when
`not confirm_text or confirm_text.strip() != "BORRAR TODO"`. -/
def confirm_ok (confirm_text : Option String) : Bool :=
  match confirm_text with
  | none => false
  | some s => s ≠ "" && pyStrip s = "BORRAR TODO"

/-- Embeds `import_guests_from_csv`.  `rows` stands for the records
`_read_csv_rows` (a plain `csv.DictReader`) yields from the CSV text; the
result is `Except` because the destructive-mode gate raises `ValueError`
before any work, in which case no store state and no report exist. -/
def import_guests_from_csv (gen : Nat → String) (db : DB) (rows : List Row)
    (mode : import_mode) (dry_run : Bool) (confirm_text : Option String) :
    Except String (DB × import_report) :=
  if (mode = import_mode.sync ∨ mode = import_mode.replace) ∧ confirm_ok confirm_text = false then
    .error "Modo destructivo requiere confirmacion BORRAR TODO."
  else
    let idx := build_db_indexes db
    let pr := validate_and_plan rows idx.1 idx.2.1 idx.2.2
    let base := { pr.2 with mode := mode.value, dry_run := dry_run }
    if dry_run then
      .ok (db, base)
    else
      match mode with
      | .add_only => .ok (apply_add_only gen db pr.1 base)
      | .upsert => .ok (apply_upsert gen db pr.1 base)
      | .sync => .ok (apply_sync gen db pr.1 base)
      | .replace => .ok (apply_replace gen db pr.1 base)

/-- The protected RSVP block of a guest, bundled for the frame claims:
attendance, confirmation time, companions, allergies, notes and the
adult/child counts. -/
def rsvp_state (g : Guest) : Bool × Option Nat × List String × String × String × Int × Int :=
  (g.confirmed, g.confirmed_at, g.companions, g.allergies, g.notes, g.num_adults, g.num_children)

/-- A deterministic stand-in for the random-code oracle, used by the
concrete scenarios. -/
def genX : Nat → String := fun n => String.append "GEN" (toString n)

/-- A stored guest with RSVP state set, used by the concrete scenarios. -/
def guestA : Guest :=
  { id := 1, guest_code := "CA", full_name := "Ana Garcia", email := "a@x.com"
    phone := "600123456", language := "es", side := "bride", relationship := "prima"
    group_id := "g1", max_accomp := 1, invite_type := "full", confirmed := true
    confirmed_at := some 5, allergies := "Gluten", notes := "Nota", num_adults := 1
    num_children := 0, companions := ["Luis"] }

/-- A second stored guest owning a different email, used by the concrete
scenarios. -/
def guestB : Guest :=
  { guestA with id := 2, guest_code := "CB", full_name := "Bea Lopez"
                email := "b@x.com", phone := "700123456" }

/-- A well-formed CSV record for Ana. -/
def rowAna : Row := [("full_name", "Ana"), ("phone", "600123456")]

/-- A record sharing Ana's canonical phone under a different spelling. -/
def rowDupPhone : Row := [("full_name", "Bea"), ("phone", "600-123-456")]

/-- A record with an empty name and guestA's phone. -/
def rowNoName : Row := [("full_name", ""), ("phone", "600123456")]

/-- A record resolving to guestA by phone but carrying guestB's email. -/
def rowForeignEmail : Row := [("full_name", "Zed"), ("phone", "600 123 456"), ("email", "b@x.com")]

/-- The store holding guestA and guestB. -/
def dbAB : DB := { guests := [guestA, guestB], nextId := 3 }

/-- The loop state over `dbAB` as the apply phase builds it, with an empty
committed report. -/
def stAB : apply_state :=
  { db := dbAB
    code_to_id := (build_db_indexes dbAB).1
    phone_to_id := (build_db_indexes dbAB).2.1
    email_to_id := (build_db_indexes dbAB).2.2
    report := { mode := "UPSERT", dry_run := false, created_count := 0, updated_count := 0,
                skipped_count := 0, rejected_count := 0, errors := [] }
    genCtr := 0 }

/-- The plan item `_validate_and_plan` produces for `rowForeignEmail`. -/
def itemForeignEmail : plan_item := { row_number := 2, data := map_row_fields rowForeignEmail }

/-- The store holding guestA alone. -/
def dbA1 : DB := { guests := [guestA], nextId := 2 }

/-- The committed UPSERT outcome over `dbA1` and the Ana row, as
`import_guests_from_csv` produces it. -/
def resA1upsert : DB × import_report :=
  apply_upsert genX dbA1
    (validate_and_plan [rowAna] (build_db_indexes dbA1).1 (build_db_indexes dbA1).2.1
      (build_db_indexes dbA1).2.2).1
    { (validate_and_plan [rowAna] (build_db_indexes dbA1).1 (build_db_indexes dbA1).2.1
        (build_db_indexes dbA1).2.2).2 with
      mode := import_mode.upsert.value, dry_run := false }

/-- The committed SYNC outcome over `dbA1` and the Ana row, as
`import_guests_from_csv` produces it. -/
def resA1sync : DB × import_report :=
  apply_sync genX dbA1
    (validate_and_plan [rowAna] (build_db_indexes dbA1).1 (build_db_indexes dbA1).2.1
      (build_db_indexes dbA1).2.2).1
    { (validate_and_plan [rowAna] (build_db_indexes dbA1).1 (build_db_indexes dbA1).2.1
        (build_db_indexes dbA1).2.2).2 with
      mode := import_mode.sync.value, dry_run := false }

end RSVP

namespace RSVP

/-- A fold preserves an invariant each step preserves, given every folded
element satisfies the side condition. -/
theorem foldl_invariant {α β : Type} (f : α → β → α) (P : α → Prop) (Q : β → Prop)
    (hstep : ∀ a b, Q b → P a → P (f a b)) :
    ∀ (l : List β), (∀ b ∈ l, Q b) → ∀ a, P a → P (List.foldl f a l) := by
  intro l
  induction l with
  | nil => intro _ a ha; exact ha
  | cons b t ih =>
    intro hQ a ha
    simp only [List.foldl_cons]
    exact ih (fun x hx => hQ x (List.mem_cons_of_mem b hx)) (f a b)
      (hstep a b (hQ b (List.mem_cons_self b t)) ha)

/-- C4: for SYNC or REPLACE, a missing confirmation phrase or one whose
trimmed value differs from the literal `BORRAR TODO` makes
`import_guests_from_csv` fail the whole operation up front: it raises the
precondition error, so no store mutation happens and no (partial) report is
returned. -/
theorem claim_C4_destructive_gate (gen : Nat → String) (db : DB) (rows : List Row)
    (mode : import_mode) (dry_run : Bool) (confirm_text : Option String)
    (hmode : mode = import_mode.sync ∨ mode = import_mode.replace)
    (hconfirm : ∀ s, confirm_text = some s → pyStrip s ≠ "BORRAR TODO") :
    import_guests_from_csv gen db rows mode dry_run confirm_text =
      Except.error "Modo destructivo requiere confirmacion BORRAR TODO." := by
  have hck : confirm_ok confirm_text = false := by
    cases confirm_text with
    | none => rfl
    | some s =>
      have hs := hconfirm s rfl
      simp [confirm_ok, hs]
  unfold import_guests_from_csv
  rw [if_pos ⟨hmode, hck⟩]

/-- Witness for C4 at mode SYNC with an absent phrase. -/
theorem claim_C4_destructive_gate_witness :
    import_guests_from_csv genX { guests := [guestA], nextId := 3 } [rowAna]
        import_mode.sync false none =
      Except.error "Modo destructivo requiere confirmacion BORRAR TODO." :=
  claim_C4_destructive_gate genX { guests := [guestA], nextId := 3 } [rowAna]
    import_mode.sync false none (Or.inl rfl) (fun s hs => by cases hs)

/-- C5 as stated is false: an input whose canonicalization has MORE than 4
digits is not rejected — its last 4 digits are used for the suffix match.
Here "123456" canonicalizes to 6 digits (not exactly 4), yet
`find_guest_for_magic` returns a match. -/
theorem claim_C5_counterexample :
    (normalize_phone "123456").length ≠ 4 ∧
    find_guest_for_magic [guestA] "ana garcia" "123456" "" = some guestA := by
  constructor
  · decide
  · decide

/-- C5 amended: the immediate rejection happens exactly when the supplied
value canonicalizes to FEWER than 4 digits; then no match is returned,
regardless of the name, the email or the store contents. -/
theorem claim_C5_short_last4_rejected (guests : List Guest)
    (full_name phone_last4 email : String)
    (h : (normalize_phone phone_last4).length < 4) :
    find_guest_for_magic guests full_name phone_last4 email = none := by
  have hlen : (strTakeRight (normalize_phone phone_last4) 4).length =
      (normalize_phone phone_last4).length := by
    unfold strTakeRight
    have h4 : (normalize_phone phone_last4).toList.length - 4 = 0 := by
      have he : (normalize_phone phone_last4).toList.length =
          (normalize_phone phone_last4).length := rfl
      omega
    rw [h4]
    rfl
  have hne : (strTakeRight (normalize_phone phone_last4) 4).length ≠ 4 := by
    rw [hlen]; omega
  simp only [find_guest_for_magic]
  rw [if_pos hne]

/-- Witness for C5 amended: two digits are rejected. -/
theorem claim_C5_short_last4_rejected_witness :
    find_guest_for_magic [guestA] "ana garcia" "12" "" = none :=
  claim_C5_short_last4_rejected [guestA] "ana garcia" "12" "" (by decide)

/-- C9: over already-canonicalized names, the flexible match succeeds
exactly when both sides keep a token longer than two characters and the two
token sets share one; with the two concrete cases of the claim, routed
through `norm_name` as `find_guest_for_magic` does. -/
theorem claim_C9_name_match_characterization :
    (∀ a b : String,
      name_matches_flexibly a b = true ↔
        ((pySplit a).filter (fun t => 2 < t.length) ≠ [] ∧
         (pySplit b).filter (fun t => 2 < t.length) ≠ [] ∧
         ∃ t, t ∈ (pySplit a).filter (fun t => 2 < t.length) ∧
              t ∈ (pySplit b).filter (fun t => 2 < t.length))) ∧
    name_matches_flexibly (norm_name "ana garcia") (norm_name "Ana García López") = true ∧
    (∀ stored : String, name_matches_flexibly (norm_name "xy z") stored = false) := by
  refine ⟨?_, by decide, ?_⟩
  · intro a b
    simp only [name_matches_flexibly]
    by_cases hA : (pySplit a).filter (fun t => 2 < t.length) = []
    · simp [hA]
    · by_cases hB : (pySplit b).filter (fun t => 2 < t.length) = []
      · simp [hA, hB]
      · have hA2 : ((pySplit a).filter (fun t => 2 < t.length)).isEmpty = false := by
          simpa [List.isEmpty_iff] using hA
        have hB2 : ((pySplit b).filter (fun t => 2 < t.length)).isEmpty = false := by
          simpa [List.isEmpty_iff] using hB
        rw [if_neg (by simp [hA2, hB2])]
        simp only [List.any_eq_true]
        constructor
        · rintro ⟨t, ht, hc⟩
          exact ⟨hA, hB, t, ht, by simpa using hc⟩
        · rintro ⟨-, -, t, ht, hc⟩
          exact ⟨t, ht, by simpa using hc⟩
  · intro stored
    have h0 : (pySplit (norm_name "xy z")).filter (fun t => 2 < t.length) = [] := by decide
    simp [name_matches_flexibly, h0]

/-- C10: the UPSERT update of a matched guest overwrites `full_name`,
`language`, `max_accomp` and `invite_type` unconditionally from the
(resolved) row, while `email`, `side`, `relationship` and `group_id` are
left unchanged when the row value is empty; for `email`, `relationship`
and `group_id` a non-empty row value does overwrite. -/
theorem claim_C10_update_overwrite_policy (data : RowData) (mbc : Bool) (g : Guest) :
    (upsert_update data mbc g).full_name = data.full_name ∧
    (upsert_update data mbc g).language = resolve_language data.language ∧
    (upsert_update data mbc g).max_accomp = data.max_accomp ∧
    (upsert_update data mbc g).invite_type = resolve_invite data.invite_type ∧
    (data.email = "" → (upsert_update data mbc g).email = g.email) ∧
    (data.email ≠ "" → (upsert_update data mbc g).email = data.email) ∧
    (data.side = "" → (upsert_update data mbc g).side = g.side) ∧
    (data.relationship = "" → (upsert_update data mbc g).relationship = g.relationship) ∧
    (data.relationship ≠ "" → (upsert_update data mbc g).relationship = data.relationship) ∧
    (data.group_id = "" → (upsert_update data mbc g).group_id = g.group_id) ∧
    (data.group_id ≠ "" → (upsert_update data mbc g).group_id = data.group_id) := by
  have hside : resolve_side "" = "" := by decide
  unfold upsert_update
  refine ⟨rfl, rfl, rfl, rfl, ?_, ?_, ?_, ?_, ?_, ?_, ?_⟩ <;> intro h <;>
    simp [h, hside]

/-- Witness for C10 at a concrete row and guest: an empty row email leaves
the stored email in place while the name is overwritten. -/
theorem claim_C10_update_overwrite_policy_witness :
    (upsert_update (map_row_fields rowAna) false guestA).email = guestA.email ∧
    (upsert_update (map_row_fields rowAna) false guestA).full_name = (map_row_fields rowAna).full_name := by
  have h := claim_C10_update_overwrite_policy (map_row_fields rowAna) false guestA
  exact ⟨h.2.2.2.2.1 (by decide), h.1⟩

/-- C1 as stated is false: for a well-formed one-row file in ADD_ONLY mode
on an empty store, the dry-run report counts nothing created while the
committed run of the same input and mode counts one creation, so the two
reports differ in their counts. -/
theorem claim_C1_counterexample :
    (import_guests_from_csv genX { guests := [], nextId := 1 } [rowAna]
        import_mode.add_only true none).map
      (fun r => (r.2.created_count, r.2.updated_count, r.2.skipped_count,
                 r.2.rejected_count, r.2.errors)) = Except.ok (0, 0, 0, 0, []) ∧
    (import_guests_from_csv genX { guests := [], nextId := 1 } [rowAna]
        import_mode.add_only false none).map
      (fun r => (r.2.created_count, r.2.updated_count, r.2.skipped_count,
                 r.2.rejected_count, r.2.errors)) = Except.ok (1, 0, 0, 0, []) ∧
    (import_guests_from_csv genX { guests := [], nextId := 1 } [rowAna]
        import_mode.add_only true none).map
      (fun r => (r.2.created_count, r.2.updated_count, r.2.skipped_count,
                 r.2.rejected_count, r.2.errors)) ≠
    (import_guests_from_csv genX { guests := [], nextId := 1 } [rowAna]
        import_mode.add_only false none).map
      (fun r => (r.2.created_count, r.2.updated_count, r.2.skipped_count,
                 r.2.rejected_count, r.2.errors)) := by
  refine ⟨by rfl, by rfl, fun h => ?_⟩
  rw [show (import_guests_from_csv genX { guests := [], nextId := 1 } [rowAna]
        import_mode.add_only true none).map
      (fun r => (r.2.created_count, r.2.updated_count, r.2.skipped_count,
                 r.2.rejected_count, r.2.errors)) = Except.ok (0, 0, 0, 0, []) from rfl,
     show (import_guests_from_csv genX { guests := [], nextId := 1 } [rowAna]
        import_mode.add_only false none).map
      (fun r => (r.2.created_count, r.2.updated_count, r.2.skipped_count,
                 r.2.rejected_count, r.2.errors)) = Except.ok (1, 0, 0, 0, []) from rfl] at h
  exact absurd (Except.ok.inj h) (by decide)

/-- C3 as stated is false: the input batch here consists of one row whose
canonical phone equals the stored guest's canonical phone, but the row is
rejected (empty name), so a committed SYNC run deletes that guest even
though its canonical phone appears among the batch's canonical phones. -/
theorem claim_C3_counterexample :
    normalize_phone guestA.phone = "600123456" ∧
    [rowNoName].map (fun r => (map_row_fields r).phone) = ["600123456"] ∧
    (import_guests_from_csv genX { guests := [guestA], nextId := 3 } [rowNoName]
        import_mode.sync false (some "BORRAR TODO")).map (fun r => r.1.guests) =
      Except.ok [] := by
  exact ⟨by decide, by decide, by rfl⟩

/-- C6 as stated is false for ADD_ONLY: the row below resolves by phone to
guest 1 while its non-empty email is indexed to guest 2, yet the committed
ADD_ONLY run records no error at all (in particular no EMAIL_CONFLICT) and
counts the row as skipped. -/
theorem claim_C6_counterexample :
    resolve_match (build_db_indexes { guests := [guestA, guestB], nextId := 3 }).1
        (build_db_indexes { guests := [guestA, guestB], nextId := 3 }).2.1
        (map_row_fields rowForeignEmail) = (some 1, false) ∧
    (map_row_fields rowForeignEmail).email = "b@x.com" ∧
    idxFind (build_db_indexes { guests := [guestA, guestB], nextId := 3 }).2.2
        "b@x.com" = some 2 ∧
    (import_guests_from_csv genX { guests := [guestA, guestB], nextId := 3 }
        [rowForeignEmail] import_mode.add_only false none).map
      (fun r => (r.2.errors, r.2.rejected_count, r.2.skipped_count)) =
      Except.ok ([], 0, 1) := by
  exact ⟨by decide, by decide, by decide, by rfl⟩

/-- C8: the row-validation rules fire in their fixed order with the first
failing rule winning — empty name, then empty canonical phone, then a
canonical phone under 6 digits, then a phone already seen in the batch,
then a non-empty email already seen in the batch — a rejected row changes
only the report (the seen-sets and the plan are untouched), an accepted row
extends the seen-sets and the plan; and, concretely, of two rows sharing a
canonical phone the first is accepted and the second rejected with
DUP_PHONE_IN_FILE. -/
theorem claim_C8_validation_order :
    (∀ (raw : Row) (rest : List Row) (idx : Nat) (sp se : List String)
        (pl : List plan_item) (rep : import_report),
      ((map_row_fields raw).full_name = "" →
        validate_loop (raw :: rest) idx sp se pl rep =
          validate_loop rest (idx + 1) sp se pl
            (add_error rep idx "full_name" "MISSING_NAME" "El nombre es obligatorio." "")) ∧
      ((map_row_fields raw).full_name ≠ "" → (map_row_fields raw).phone = "" →
        validate_loop (raw :: rest) idx sp se pl rep =
          validate_loop rest (idx + 1) sp se pl
            (add_error rep idx "phone" "INVALID_PHONE"
              "Telefono vacio o invalido (sin digitos)." (map_row_fields raw).phone_raw)) ∧
      ((map_row_fields raw).full_name ≠ "" → (map_row_fields raw).phone ≠ "" →
        (map_row_fields raw).phone.length < 6 →
        validate_loop (raw :: rest) idx sp se pl rep =
          validate_loop rest (idx + 1) sp se pl
            (add_error rep idx "phone" "INVALID_PHONE"
              "Telefono muy corto (min 6 digitos)." (map_row_fields raw).phone_raw)) ∧
      ((map_row_fields raw).full_name ≠ "" → (map_row_fields raw).phone ≠ "" →
        ¬ (map_row_fields raw).phone.length < 6 → (map_row_fields raw).phone ∈ sp →
        validate_loop (raw :: rest) idx sp se pl rep =
          validate_loop rest (idx + 1) sp se pl
            (add_error rep idx "phone" "DUP_PHONE_IN_FILE"
              "Telefono duplicado en este archivo." (map_row_fields raw).phone_raw)) ∧
      ((map_row_fields raw).full_name ≠ "" → (map_row_fields raw).phone ≠ "" →
        ¬ (map_row_fields raw).phone.length < 6 → (map_row_fields raw).phone ∉ sp →
        (map_row_fields raw).email ≠ "" → (map_row_fields raw).email ∈ se →
        validate_loop (raw :: rest) idx sp se pl rep =
          validate_loop rest (idx + 1) sp se pl
            (add_error rep idx "email" "DUP_EMAIL_IN_FILE"
              "Email duplicado en este archivo." (map_row_fields raw).email)) ∧
      ((map_row_fields raw).full_name ≠ "" → (map_row_fields raw).phone ≠ "" →
        ¬ (map_row_fields raw).phone.length < 6 → (map_row_fields raw).phone ∉ sp →
        ((map_row_fields raw).email = "" ∨ (map_row_fields raw).email ∉ se) →
        validate_loop (raw :: rest) idx sp se pl rep =
          validate_loop rest (idx + 1) (sp ++ [(map_row_fields raw).phone])
            (if (map_row_fields raw).email ≠ "" then se ++ [(map_row_fields raw).email] else se)
            (pl ++ [{ row_number := idx, data := map_row_fields raw }]) rep)) ∧
    validate_and_plan [rowAna, rowDupPhone] [] [] [] =
      ([{ row_number := 2, data := map_row_fields rowAna }],
       { mode := "", dry_run := true, created_count := 0, updated_count := 0,
         skipped_count := 0, rejected_count := 1,
         errors := [{ row_number := 3, field := "phone", code := "DUP_PHONE_IN_FILE",
                      message := "Telefono duplicado en este archivo.",
                      value := "600-123-456" }] }) := by
  constructor
  · intro raw rest idx sp se pl rep
    refine ⟨?_, ?_, ?_, ?_, ?_, ?_⟩
    · intro h1
      simp only [validate_loop]
      rw [if_pos h1]
    · intro h1 h2
      simp only [validate_loop]
      rw [if_neg h1, if_pos h2]
    · intro h1 h2 h3
      simp only [validate_loop]
      rw [if_neg h1, if_neg h2, if_pos h3]
    · intro h1 h2 h3 h4
      simp only [validate_loop]
      rw [if_neg h1, if_neg h2, if_neg h3, if_pos (by simpa using h4)]
    · intro h1 h2 h3 h4 h5 h6
      simp only [validate_loop]
      rw [if_neg h1, if_neg h2, if_neg h3, if_neg (by simpa using h4),
        if_pos (by simp [h5, h6])]
    · intro h1 h2 h3 h4 h5
      simp only [validate_loop]
      rw [if_neg h1, if_neg h2, if_neg h3, if_neg (by simpa using h4),
        if_neg (by rcases h5 with h5 | h5 <;> simp [h5])]
  · decide

/-- Witness for C8: the empty-name rule fires on a concrete row. -/
theorem claim_C8_validation_order_witness :
    validate_loop [rowNoName] 2 [] [] []
      { mode := "", dry_run := true, created_count := 0, updated_count := 0,
        skipped_count := 0, rejected_count := 0, errors := [] } =
    validate_loop [] 3 [] [] []
      (add_error
        { mode := "", dry_run := true, created_count := 0, updated_count := 0,
          skipped_count := 0, rejected_count := 0, errors := [] }
        2 "full_name" "MISSING_NAME" "El nombre es obligatorio." "") :=
  (claim_C8_validation_order.1 rowNoName [] 2 [] [] []
    { mode := "", dry_run := true, created_count := 0, updated_count := 0,
      skipped_count := 0, rejected_count := 0, errors := [] }).1 (by decide)

/-- C6 amended: in UPSERT (hence also in the upsert phase of SYNC), a plan
row whose non-empty email is indexed to a guest different from the resolved
one — or indexed at all when no guest resolves — is rejected with
EMAIL_CONFLICT and leaves the store (in particular the email owner) and the
indexes unchanged; ADD_ONLY rejects with EMAIL_CONFLICT only on its create
path (no code/phone match), because a row that resolves to an existing
guest is counted as skipped before the email check, again leaving the store
unchanged. -/
theorem claim_C6_email_conflict_guard :
    (∀ (gen : Nat → String) (st : apply_state) (item : plan_item) (eid owner : Int) (mbc : Bool),
      resolve_match st.code_to_id st.phone_to_id item.data = (some eid, mbc) →
      item.data.email ≠ "" →
      idxFind st.email_to_id item.data.email = some owner →
      owner ≠ eid →
      upsert_step gen st item =
        { st with report := (add_error st.report item.row_number "email" "EMAIL_CONFLICT"
            "Email ya pertenece a otro invitado (ID diferente)." item.data.email) }) ∧
    (∀ (gen : Nat → String) (st : apply_state) (item : plan_item) (owner : Int),
      resolve_match st.code_to_id st.phone_to_id item.data = (none, false) →
      item.data.email ≠ "" →
      idxFind st.email_to_id item.data.email = some owner →
      upsert_step gen st item =
        { st with report := (add_error st.report item.row_number "email" "EMAIL_CONFLICT"
            "Email ya pertenece a otro invitado." item.data.email) }) ∧
    (∀ (gen : Nat → String) (st : apply_state) (item : plan_item),
      resolve_match st.code_to_id st.phone_to_id item.data = (none, false) →
      item.data.email ≠ "" →
      idxContains st.email_to_id item.data.email = true →
      add_only_step gen st item =
        { st with report := (add_error st.report item.row_number "email" "EMAIL_CONFLICT"
            "Email ya pertenece a otro invitado." item.data.email) }) ∧
    (∀ (gen : Nat → String) (st : apply_state) (item : plan_item) (eid : Int) (mbc : Bool),
      resolve_match st.code_to_id st.phone_to_id item.data = (some eid, mbc) →
      add_only_step gen st item =
        { st with report :=
            { st.report with skipped_count := st.report.skipped_count + 1 } }) := by
  refine ⟨?_, ?_, ?_, ?_⟩
  · intro gen st item eid owner mbc hmatch hemail hfind howner
    unfold upsert_step
    dsimp only
    rw [hmatch]
    simp [hemail, hfind, howner]
  · intro gen st item owner hmatch hemail hfind
    unfold upsert_step
    dsimp only
    rw [hmatch]
    simp [hemail, hfind]
  · intro gen st item hmatch hemail hcont
    unfold add_only_step
    dsimp only
    rw [hmatch]
    simp [hemail, hcont]
  · intro gen st item eid mbc hmatch
    unfold add_only_step
    dsimp only
    rw [hmatch]

/-- Witness for C6 amended: the UPSERT conflict branch at a concrete state
where the row resolves to guest 1 and the email belongs to guest 2. -/
theorem claim_C6_email_conflict_guard_witness :
    upsert_step genX stAB itemForeignEmail =
      { stAB with report := (add_error stAB.report itemForeignEmail.row_number "email"
          "EMAIL_CONFLICT" "Email ya pertenece a otro invitado (ID diferente)."
          itemForeignEmail.data.email) } :=
  claim_C6_email_conflict_guard.1 genX stAB itemForeignEmail 1 2 false
    (by decide) (by decide) (by decide) (by decide)

/-- Filtering twice with the same predicate filters once. -/
theorem filter_idempotent {α : Type} (p : α → Bool) (l : List α) :
    (l.filter p).filter p = l.filter p := by
  induction l with
  | nil => rfl
  | cons a t ih => by_cases hp : p a <;> simp [List.filter_cons, hp, ih]

/-- Phone canonicalization is idempotent. -/
theorem normalize_phone_idem (s : String) :
    normalize_phone (normalize_phone s) = normalize_phone s := by
  unfold normalize_phone
  exact congrArg String.mk (filter_idempotent _ _)

/-- The validation loop never touches the created/updated/skipped counts:
they come out as they went in (zero, from `_validate_and_plan`). -/
theorem validate_loop_apply_counts (rows : List Row) :
    ∀ (idx : Nat) (sp se : List String) (pl : List plan_item) (rep : import_report),
      (validate_loop rows idx sp se pl rep).2.created_count = rep.created_count ∧
      (validate_loop rows idx sp se pl rep).2.updated_count = rep.updated_count ∧
      (validate_loop rows idx sp se pl rep).2.skipped_count = rep.skipped_count := by
  induction rows with
  | nil => intro idx sp se pl rep; exact ⟨rfl, rfl, rfl⟩
  | cons raw rest ih =>
    intro idx sp se pl rep
    simp only [validate_loop]
    split_ifs with h1 h2 h3 h4 h5 <;> exact ih _ _ _ _ _

/-- Every item the validation loop adds to the plan carries a non-empty,
already-canonical phone of at least 6 digits. -/
theorem validate_loop_plan_sound (rows : List Row) :
    ∀ (idx : Nat) (sp se : List String) (pl : List plan_item) (rep : import_report),
      (∀ it ∈ pl, it.data.phone ≠ "" ∧ normalize_phone it.data.phone = it.data.phone) →
      ∀ it ∈ (validate_loop rows idx sp se pl rep).1,
        it.data.phone ≠ "" ∧ normalize_phone it.data.phone = it.data.phone := by
  induction rows with
  | nil => intro idx sp se pl rep hpl it hit; exact hpl it hit
  | cons raw rest ih =>
    intro idx sp se pl rep hpl
    simp only [validate_loop]
    split_ifs with h1 h2 h3 h4 h5 h6 <;>
    first
      | exact ih _ _ _ _ _ hpl
      | (apply ih
         intro it hit
         rcases List.mem_append.mp hit with hmem | hmem
         exacts [hpl it hmem,
           by
             have heq : it = { row_number := idx, data := map_row_fields raw } := by
               simpa using hmem
             subst heq
             exact ⟨h2, normalize_phone_idem _⟩])

/-- The destructive gate: SYNC/REPLACE with a failing confirmation raises
before any work. -/
theorem import_gate_raises (gen : Nat → String) (db : DB) (rows : List Row)
    (mode : import_mode) (dry_run : Bool) (confirm_text : Option String)
    (hmode : mode = import_mode.sync ∨ mode = import_mode.replace)
    (hck : confirm_ok confirm_text = false) :
    import_guests_from_csv gen db rows mode dry_run confirm_text =
      Except.error "Modo destructivo requiere confirmacion BORRAR TODO." := by
  unfold import_guests_from_csv
  rw [if_pos ⟨hmode, hck⟩]

/-- A committed ADD_ONLY run is the validation phase followed by
`_apply_add_only`. -/
theorem import_add_only_committed (gen : Nat → String) (db : DB) (rows : List Row)
    (confirm_text : Option String) :
    import_guests_from_csv gen db rows import_mode.add_only false confirm_text =
      Except.ok (apply_add_only gen db
        (validate_and_plan rows (build_db_indexes db).1 (build_db_indexes db).2.1
          (build_db_indexes db).2.2).1
        { (validate_and_plan rows (build_db_indexes db).1 (build_db_indexes db).2.1
            (build_db_indexes db).2.2).2 with
          mode := import_mode.add_only.value, dry_run := false }) := by
  unfold import_guests_from_csv
  rw [if_neg (by rintro ⟨h | h, -⟩ <;> simp at h)]
  rfl

/-- A committed UPSERT run is the validation phase followed by
`_apply_upsert`. -/
theorem import_upsert_committed (gen : Nat → String) (db : DB) (rows : List Row)
    (confirm_text : Option String) :
    import_guests_from_csv gen db rows import_mode.upsert false confirm_text =
      Except.ok (apply_upsert gen db
        (validate_and_plan rows (build_db_indexes db).1 (build_db_indexes db).2.1
          (build_db_indexes db).2.2).1
        { (validate_and_plan rows (build_db_indexes db).1 (build_db_indexes db).2.1
            (build_db_indexes db).2.2).2 with
          mode := import_mode.upsert.value, dry_run := false }) := by
  unfold import_guests_from_csv
  rw [if_neg (by rintro ⟨h | h, -⟩ <;> simp at h)]
  rfl

/-- A committed SYNC run with a passing confirmation is the validation
phase followed by `_apply_sync`. -/
theorem import_sync_committed (gen : Nat → String) (db : DB) (rows : List Row)
    (confirm_text : Option String) (hok : confirm_ok confirm_text = true) :
    import_guests_from_csv gen db rows import_mode.sync false confirm_text =
      Except.ok (apply_sync gen db
        (validate_and_plan rows (build_db_indexes db).1 (build_db_indexes db).2.1
          (build_db_indexes db).2.2).1
        { (validate_and_plan rows (build_db_indexes db).1 (build_db_indexes db).2.1
            (build_db_indexes db).2.2).2 with
          mode := import_mode.sync.value, dry_run := false }) := by
  unfold import_guests_from_csv
  rw [if_neg (by rintro ⟨-, hc⟩; rw [hok] at hc; cases hc)]
  rfl

/-- A committed REPLACE run with a passing confirmation is the validation
phase followed by `_apply_replace`. -/
theorem import_replace_committed (gen : Nat → String) (db : DB) (rows : List Row)
    (confirm_text : Option String) (hok : confirm_ok confirm_text = true) :
    import_guests_from_csv gen db rows import_mode.replace false confirm_text =
      Except.ok (apply_replace gen db
        (validate_and_plan rows (build_db_indexes db).1 (build_db_indexes db).2.1
          (build_db_indexes db).2.2).1
        { (validate_and_plan rows (build_db_indexes db).1 (build_db_indexes db).2.1
            (build_db_indexes db).2.2).2 with
          mode := import_mode.replace.value, dry_run := false }) := by
  unfold import_guests_from_csv
  rw [if_neg (by rintro ⟨-, hc⟩; rw [hok] at hc; cases hc)]
  rfl

/-- One ADD_ONLY loop step leaves the store unchanged or appends one fresh
guest built from the row. -/
theorem add_only_step_db_cases (gen : Nat → String) (st : apply_state) (item : plan_item) :
    (add_only_step gen st item).db = st.db ∨
    (∃ c, (add_only_step gen st item).db =
      { guests := st.db.guests ++ [mk_guest st.db.nextId item.data c]
        nextId := st.db.nextId + 1 }) := by
  unfold add_only_step
  dsimp only
  repeat' split
  all_goals first
    | (left; rfl)
    | (right; exact ⟨_, rfl⟩)

/-- One UPSERT loop step leaves the store unchanged, appends one fresh
guest built from the row, or rewrites in place the guests carrying the
matched id through `upsert_update`. -/
theorem upsert_step_db_cases (gen : Nat → String) (st : apply_state) (item : plan_item) :
    (upsert_step gen st item).db = st.db ∨
    (∃ c, (upsert_step gen st item).db =
      { guests := st.db.guests ++ [mk_guest st.db.nextId item.data c]
        nextId := st.db.nextId + 1 }) ∨
    (∃ eid mbc, (upsert_step gen st item).db =
      { st.db with guests := (st.db.guests.map
          (fun h => if h.id = eid then upsert_update item.data mbc h else h)) }) := by
  unfold upsert_step
  dsimp only
  repeat' split
  all_goals first
    | (left; rfl)
    | (right; left; exact ⟨_, rfl⟩)
    | (right; right; exact ⟨_, _, rfl⟩)

/-- One ADD_ONLY loop step only ever appends to the error list. -/
theorem add_only_step_errors_mono (gen : Nat → String) (st : apply_state) (item : plan_item) :
    st.report.errors <+: (add_only_step gen st item).report.errors := by
  unfold add_only_step
  dsimp only
  repeat' split
  all_goals first
    | exact List.prefix_refl _
    | exact List.prefix_append _ _

/-- One UPSERT loop step only ever appends to the error list. -/
theorem upsert_step_errors_mono (gen : Nat → String) (st : apply_state) (item : plan_item) :
    st.report.errors <+: (upsert_step gen st item).report.errors := by
  unfold upsert_step
  dsimp only
  repeat' split
  all_goals first
    | exact List.prefix_refl _
    | exact List.prefix_append _ _

/-- The in-place UPSERT update never touches the row id. -/
theorem upsert_update_id (d : RowData) (mbc : Bool) (x : Guest) :
    (upsert_update d mbc x).id = x.id := rfl

/-- The in-place UPSERT update never touches the guest code. -/
theorem upsert_update_guest_code (d : RowData) (mbc : Bool) (x : Guest) :
    (upsert_update d mbc x).guest_code = x.guest_code := rfl

/-- The in-place UPSERT update never touches any RSVP field. -/
theorem upsert_update_rsvp (d : RowData) (mbc : Bool) (x : Guest) :
    rsvp_state (upsert_update d mbc x) = rsvp_state x := rfl

/-- ADD_ONLY never removes or rewrites a stored guest. -/
theorem add_only_step_guests_superset (gen : Nat → String) (st : apply_state)
    (item : plan_item) (g : Guest) (hg : g ∈ st.db.guests) :
    g ∈ (add_only_step gen st item).db.guests := by
  rcases add_only_step_db_cases gen st item with hdb | ⟨c, hdb⟩ <;> rw [hdb]
  · exact hg
  · exact List.mem_append_left _ hg

/-- A guest property that survives `upsert_update` applied with the step's
row survives one UPSERT step: some guest satisfying it is still stored. -/
theorem upsert_step_exists_preserved (gen : Nat → String) (st : apply_state)
    (item : plan_item) (P : Guest → Prop)
    (hP : ∀ (mbc : Bool) (x : Guest), P x → P (upsert_update item.data mbc x))
    (hex : ∃ h2 ∈ st.db.guests, P h2) :
    ∃ h2 ∈ (upsert_step gen st item).db.guests, P h2 := by
  obtain ⟨w, hm, hw⟩ := hex
  rcases upsert_step_db_cases gen st item with hdb | ⟨c, hdb⟩ | ⟨eid, mbc, hdb⟩ <;> rw [hdb]
  · exact ⟨w, hm, hw⟩
  · exact ⟨w, List.mem_append_left _ hm, hw⟩
  · refine ⟨(fun h2 => if h2.id = eid then upsert_update item.data mbc h2 else h2) w,
      List.mem_map_of_mem _ hm, ?_⟩
    dsimp only
    by_cases hwe : w.id = eid
    · rw [if_pos hwe]
      exact hP mbc w hw
    · rw [if_neg hwe]
      exact hw

/-- One UPSERT step carries the code-stability invariant for a pre-run id
`gId` below the pre-run `nId0`: every stored guest with that id keeps code
`code0`, the id counter never decreases, and some guest with that id and
code survives. -/
theorem upsert_step_code_stable (gen : Nat → String) (st : apply_state) (item : plan_item)
    (gId : Int) (code0 : String) (nId0 : Int) (hlt : gId < nId0)
    (h : (∀ g2 ∈ st.db.guests, g2.id = gId → g2.guest_code = code0) ∧
         nId0 ≤ st.db.nextId ∧
         (∃ g2 ∈ st.db.guests, g2.id = gId ∧ g2.guest_code = code0)) :
    (∀ g2 ∈ (upsert_step gen st item).db.guests, g2.id = gId → g2.guest_code = code0) ∧
    nId0 ≤ (upsert_step gen st item).db.nextId ∧
    (∃ g2 ∈ (upsert_step gen st item).db.guests, g2.id = gId ∧ g2.guest_code = code0) := by
  obtain ⟨hall, hle, w, hm, hwid, hwcode⟩ := h
  rcases upsert_step_db_cases gen st item with hdb | ⟨c, hdb⟩ | ⟨eid, mbc, hdb⟩ <;> rw [hdb]
  · exact ⟨hall, hle, w, hm, hwid, hwcode⟩
  · refine ⟨?_, ?_, w, List.mem_append_left _ hm, hwid, hwcode⟩
    · intro g2 hg2 hid2
      rcases List.mem_append.mp hg2 with h2 | h2
      · exact hall g2 h2 hid2
      · have hg2e : g2 = mk_guest st.db.nextId item.data c := by simpa using h2
        subst hg2e
        exfalso
        have hni : st.db.nextId = gId := hid2
        omega
    · show nId0 ≤ st.db.nextId + 1
      omega
  · refine ⟨?_, hle, ?_⟩
    · intro g2 hg2 hid2
      rcases List.mem_map.mp hg2 with ⟨x, hx, rfl⟩
      by_cases hxe : x.id = eid
      · rw [if_pos hxe] at hid2 ⊢
        exact hall x hx hid2
      · rw [if_neg hxe] at hid2 ⊢
        exact hall x hx hid2
    · refine ⟨(fun h2 => if h2.id = eid then upsert_update item.data mbc h2 else h2) w,
        List.mem_map_of_mem _ hm, ?_, ?_⟩
      · dsimp only
        by_cases hwe : w.id = eid
        · rw [if_pos hwe]; exact hwid
        · rw [if_neg hwe]; exact hwid
      · dsimp only
        by_cases hwe : w.id = eid
        · rw [if_pos hwe]; exact hwcode
        · rw [if_neg hwe]; exact hwcode

/-- `_apply_add_only` keeps every pre-run guest untouched in the store. -/
theorem apply_add_only_keeps_guest (gen : Nat → String) (db : DB) (plan : List plan_item)
    (rep : import_report) (g : Guest) (hg : g ∈ db.guests) :
    g ∈ (apply_add_only gen db plan rep).1.guests := by
  unfold apply_add_only
  dsimp only
  exact foldl_invariant (add_only_step gen) (fun st => g ∈ st.db.guests) (fun _ => True)
    (fun a b _ ha => add_only_step_guests_superset gen a b g ha)
    plan (fun _ _ => trivial) _ hg

/-- A guest property preserved by every row's `upsert_update` still has a
stored witness after `_apply_upsert`. -/
theorem apply_upsert_exists (gen : Nat → String) (db : DB) (plan : List plan_item)
    (rep : import_report) (P : Guest → Prop)
    (hP : ∀ it ∈ plan, ∀ (mbc : Bool) (x : Guest), P x → P (upsert_update it.data mbc x))
    (hex : ∃ h2 ∈ db.guests, P h2) :
    ∃ h2 ∈ (apply_upsert gen db plan rep).1.guests, P h2 := by
  unfold apply_upsert
  dsimp only
  exact foldl_invariant (upsert_step gen) (fun st => ∃ h2 ∈ st.db.guests, P h2)
    (fun it => ∀ (mbc : Bool) (x : Guest), P x → P (upsert_update it.data mbc x))
    (fun a b hQb ha => upsert_step_exists_preserved gen a b P hQb ha)
    plan hP _ hex

/-- `_apply_upsert` never regenerates or reassigns a pre-run guest code:
over a store whose ids all identify one guest code `code0` at id `gId`
below the id counter, every post-run guest at that id still carries
`code0`, and one such guest survives. -/
theorem apply_upsert_code_stable (gen : Nat → String) (db : DB) (plan : List plan_item)
    (rep : import_report) (gId : Int) (code0 : String)
    (hlt : gId < db.nextId)
    (hall : ∀ g2 ∈ db.guests, g2.id = gId → g2.guest_code = code0)
    (hex : ∃ g2 ∈ db.guests, g2.id = gId ∧ g2.guest_code = code0) :
    (∀ g2 ∈ (apply_upsert gen db plan rep).1.guests, g2.id = gId → g2.guest_code = code0) ∧
    (∃ g2 ∈ (apply_upsert gen db plan rep).1.guests, g2.id = gId ∧ g2.guest_code = code0) := by
  unfold apply_upsert
  dsimp only
  have key := foldl_invariant (upsert_step gen)
    (fun st => (∀ g2 ∈ st.db.guests, g2.id = gId → g2.guest_code = code0) ∧
               db.nextId ≤ st.db.nextId ∧
               (∃ g2 ∈ st.db.guests, g2.id = gId ∧ g2.guest_code = code0))
    (fun _ => True)
    (fun a b _ ha => upsert_step_code_stable gen a b gId code0 db.nextId hlt ha)
    plan (fun _ _ => trivial)
    { db := db
      code_to_id := (build_db_indexes db).1
      phone_to_id := (build_db_indexes db).2.1
      email_to_id := (build_db_indexes db).2.2
      report := rep, genCtr := 0 }
    ⟨hall, le_refl _, hex⟩
  exact ⟨key.1, key.2.2⟩

/-- `_apply_add_only` only appends errors to the incoming report. -/
theorem apply_add_only_errors_mono (gen : Nat → String) (db : DB) (plan : List plan_item)
    (rep : import_report) :
    rep.errors <+: (apply_add_only gen db plan rep).2.errors := by
  unfold apply_add_only
  dsimp only
  exact foldl_invariant (add_only_step gen) (fun st => rep.errors <+: st.report.errors)
    (fun _ => True)
    (fun a b _ ha => ha.trans (add_only_step_errors_mono gen a b))
    plan (fun _ _ => trivial) _ (List.prefix_refl _)

/-- `_apply_upsert` only appends errors to the incoming report. -/
theorem apply_upsert_errors_mono (gen : Nat → String) (db : DB) (plan : List plan_item)
    (rep : import_report) :
    rep.errors <+: (apply_upsert gen db plan rep).2.errors := by
  unfold apply_upsert
  dsimp only
  exact foldl_invariant (upsert_step gen) (fun st => rep.errors <+: st.report.errors)
    (fun _ => True)
    (fun a b _ ha => ha.trans (upsert_step_errors_mono gen a b))
    plan (fun _ _ => trivial) _ (List.prefix_refl _)

/-- `_apply_sync` only appends errors to the incoming report (the deletion
pass never touches the report). -/
theorem apply_sync_errors_mono (gen : Nat → String) (db : DB) (plan : List plan_item)
    (rep : import_report) :
    rep.errors <+: (apply_sync gen db plan rep).2.errors := by
  unfold apply_sync
  dsimp only
  exact apply_upsert_errors_mono gen db plan rep

/-- `_apply_replace` only appends errors to the incoming report. -/
theorem apply_replace_errors_mono (gen : Nat → String) (db : DB) (plan : List plan_item)
    (rep : import_report) :
    rep.errors <+: (apply_replace gen db plan rep).2.errors := by
  unfold apply_replace
  exact apply_add_only_errors_mono gen _ plan rep

/-- C2: a committed ADD_ONLY or UPSERT run leaves every pre-run guest's
protected RSVP block (attendance, confirmation time, companions, allergies,
notes, adult/child counts) unchanged: a guest with the same id and the same
RSVP state is still stored, even when a row matched that guest and supplied
administrative changes. -/
theorem claim_C2_rsvp_fields_protected (gen : Nat → String) (db : DB) (rows : List Row)
    (mode : import_mode) (confirm_text : Option String)
    (hmode : mode = import_mode.add_only ∨ mode = import_mode.upsert)
    (g : Guest) (hg : g ∈ db.guests) (res : DB × import_report)
    (hres : import_guests_from_csv gen db rows mode false confirm_text = Except.ok res) :
    ∃ g2 ∈ res.1.guests, g2.id = g.id ∧ rsvp_state g2 = rsvp_state g := by
  rcases hmode with hm | hm <;> subst hm
  · rw [import_add_only_committed] at hres
    have hr := (Except.ok.inj hres).symm
    subst hr
    exact ⟨g, apply_add_only_keeps_guest gen db _ _ g hg, rfl, rfl⟩
  · rw [import_upsert_committed] at hres
    have hr := (Except.ok.inj hres).symm
    subst hr
    exact apply_upsert_exists gen db _ _
      (fun g2 => g2.id = g.id ∧ rsvp_state g2 = rsvp_state g)
      (fun it _ mbc x hx => ⟨(upsert_update_id it.data mbc x).trans hx.1,
        (upsert_update_rsvp it.data mbc x).trans hx.2⟩)
      ⟨g, hg, rfl, rfl⟩

/-- Witness for C2: a committed UPSERT over a one-guest store with a row
matching that guest by phone. -/
theorem claim_C2_rsvp_fields_protected_witness :
    ∃ g2 ∈ resA1upsert.1.guests, g2.id = guestA.id ∧ rsvp_state g2 = rsvp_state guestA :=
  claim_C2_rsvp_fields_protected genX dbA1 [rowAna] import_mode.upsert none
    (Or.inr rfl) guestA (by decide) resA1upsert
    (import_upsert_committed genX dbA1 [rowAna] none)

/-- C7: a committed UPSERT or SYNC run never changes the `guest_code` of a
guest that existed before the run (even when the matched row supplies a
different code): every post-run guest carrying a pre-run guest's id carries
that guest's code, and under UPSERT the guest is moreover still stored.
The store is assumed well-formed: ids are unique and below the id
counter. -/
theorem claim_C7_guest_code_immutable (gen : Nat → String) (db : DB) (rows : List Row)
    (mode : import_mode) (confirm_text : Option String)
    (hmode : mode = import_mode.upsert ∨ mode = import_mode.sync)
    (hwf : ∀ h2 ∈ db.guests, h2.id < db.nextId)
    (hnodup : (db.guests.map (fun h2 => h2.id)).Nodup)
    (g : Guest) (hg : g ∈ db.guests) (res : DB × import_report)
    (hres : import_guests_from_csv gen db rows mode false confirm_text = Except.ok res) :
    (∀ g2 ∈ res.1.guests, g2.id = g.id → g2.guest_code = g.guest_code) ∧
    (mode = import_mode.upsert →
      ∃ g2 ∈ res.1.guests, g2.id = g.id ∧ g2.guest_code = g.guest_code) := by
  have hall : ∀ g2 ∈ db.guests, g2.id = g.id → g2.guest_code = g.guest_code := by
    intro g2 hg2 hid
    have hgg : g2 = g := List.inj_on_of_nodup_map hnodup hg2 hg hid
    rw [hgg]
  rcases hmode with hm | hm <;> subst hm
  · rw [import_upsert_committed] at hres
    have hr := (Except.ok.inj hres).symm
    subst hr
    have key := apply_upsert_code_stable gen db
      (validate_and_plan rows (build_db_indexes db).1 (build_db_indexes db).2.1
        (build_db_indexes db).2.2).1
      { (validate_and_plan rows (build_db_indexes db).1 (build_db_indexes db).2.1
          (build_db_indexes db).2.2).2 with
        mode := import_mode.upsert.value, dry_run := false }
      g.id g.guest_code (hwf g hg) hall ⟨g, hg, rfl, rfl⟩
    exact ⟨key.1, fun _ => key.2⟩
  · by_cases hok : confirm_ok confirm_text = true
    · rw [import_sync_committed gen db rows confirm_text hok] at hres
      have hr := (Except.ok.inj hres).symm
      subst hr
      refine ⟨?_, fun hc => import_mode.noConfusion hc⟩
      intro g2 hg2 hid
      unfold apply_sync at hg2
      dsimp only at hg2
      have hg2u := (List.mem_filter.mp hg2).1
      exact (apply_upsert_code_stable gen db
        (validate_and_plan rows (build_db_indexes db).1 (build_db_indexes db).2.1
          (build_db_indexes db).2.2).1
        { (validate_and_plan rows (build_db_indexes db).1 (build_db_indexes db).2.1
            (build_db_indexes db).2.2).2 with
          mode := import_mode.sync.value, dry_run := false }
        g.id g.guest_code (hwf g hg) hall ⟨g, hg, rfl, rfl⟩).1 g2 hg2u hid
    · have hfail := import_gate_raises gen db rows import_mode.sync false confirm_text
        (Or.inl rfl) (by simpa using hok)
      rw [hfail] at hres
      exact Except.noConfusion hres

/-- Witness for C7: a committed UPSERT over a one-guest store. -/
theorem claim_C7_guest_code_immutable_witness :
    (∀ g2 ∈ resA1upsert.1.guests, g2.id = guestA.id → g2.guest_code = guestA.guest_code) ∧
    (import_mode.upsert = import_mode.upsert →
      ∃ g2 ∈ resA1upsert.1.guests, g2.id = guestA.id ∧ g2.guest_code = guestA.guest_code) :=
  claim_C7_guest_code_immutable genX dbA1 [rowAna] import_mode.upsert none
    (Or.inl rfl) (by decide) (by decide) guestA (by decide) resA1upsert
    (import_upsert_committed genX dbA1 [rowAna] none)

/-- C3 amended: after a committed SYNC run, every guest still stored has a
non-empty canonical phone that appears among the canonical phones of the
ACCEPTED (validated) rows — equivalently, every guest whose post-upsert
canonical phone is not among them has been deleted — and every pre-run
guest whose canonical phone appears among the accepted rows' phones is
still present (by id). -/
theorem claim_C3_sync_deletion_boundary (gen : Nat → String) (db : DB) (rows : List Row)
    (confirm_text : Option String) (res : DB × import_report)
    (hres : import_guests_from_csv gen db rows import_mode.sync false confirm_text =
      Except.ok res) :
    (∀ g2 ∈ res.1.guests,
      normalize_phone g2.phone ≠ "" ∧
      normalize_phone g2.phone ∈
        ((validate_and_plan rows (build_db_indexes db).1 (build_db_indexes db).2.1
          (build_db_indexes db).2.2).1.map (fun item => item.data.phone))) ∧
    (∀ g ∈ db.guests,
      normalize_phone g.phone ∈
        ((validate_and_plan rows (build_db_indexes db).1 (build_db_indexes db).2.1
          (build_db_indexes db).2.2).1.map (fun item => item.data.phone)) →
      ∃ g2 ∈ res.1.guests, g2.id = g.id) := by
  by_cases hok : confirm_ok confirm_text = true
  case neg =>
    have hfail := import_gate_raises gen db rows import_mode.sync false confirm_text
      (Or.inl rfl) (by simpa using hok)
    rw [hfail] at hres
    exact Except.noConfusion hres
  case pos =>
  rw [import_sync_committed gen db rows confirm_text hok] at hres
  have hr := (Except.ok.inj hres).symm
  subst hr
  have hplan_sound : ∀ it ∈ (validate_and_plan rows (build_db_indexes db).1
      (build_db_indexes db).2.1 (build_db_indexes db).2.2).1,
      it.data.phone ≠ "" ∧ normalize_phone it.data.phone = it.data.phone :=
    validate_loop_plan_sound rows 2 [] [] [] _ (fun it h => absurd h (List.not_mem_nil it))
  constructor
  · intro g2 hg2
    unfold apply_sync at hg2
    dsimp only at hg2
    obtain ⟨hg2u, hpred⟩ := List.mem_filter.mp hg2
    simpa using hpred
  · intro g hgmem hin
    unfold apply_sync
    dsimp only
    have hP : ∀ it ∈ (validate_and_plan rows (build_db_indexes db).1
        (build_db_indexes db).2.1 (build_db_indexes db).2.2).1,
        ∀ (mbc : Bool) (x : Guest),
        (x.id = g.id ∧ normalize_phone x.phone ∈
          ((validate_and_plan rows (build_db_indexes db).1 (build_db_indexes db).2.1
            (build_db_indexes db).2.2).1.map (fun item => item.data.phone))) →
        ((upsert_update it.data mbc x).id = g.id ∧
          normalize_phone (upsert_update it.data mbc x).phone ∈
          ((validate_and_plan rows (build_db_indexes db).1 (build_db_indexes db).2.1
            (build_db_indexes db).2.2).1.map (fun item => item.data.phone))) := by
      intro it hit mbc x hx
      refine ⟨(upsert_update_id it.data mbc x).trans hx.1, ?_⟩
      have hs := hplan_sound it hit
      show normalize_phone (upsert_update it.data mbc x).phone ∈ _
      unfold upsert_update
      dsimp only
      split
      · rw [hs.2]
        exact List.mem_map_of_mem _ hit
      · exact hx.2
    have hx := apply_upsert_exists gen db
      (validate_and_plan rows (build_db_indexes db).1 (build_db_indexes db).2.1
        (build_db_indexes db).2.2).1
      { (validate_and_plan rows (build_db_indexes db).1 (build_db_indexes db).2.1
          (build_db_indexes db).2.2).2 with
        mode := import_mode.sync.value, dry_run := false }
      (fun x => x.id = g.id ∧ normalize_phone x.phone ∈
        ((validate_and_plan rows (build_db_indexes db).1 (build_db_indexes db).2.1
          (build_db_indexes db).2.2).1.map (fun item => item.data.phone)))
      hP ⟨g, hgmem, rfl, hin⟩
    obtain ⟨w, hwmem, hwid, hwph⟩ := hx
    have hw1 : normalize_phone w.phone ≠ "" := by
      rcases List.mem_map.mp hwph with ⟨it, hit, hph⟩
      have hs := hplan_sound it hit
      rw [← hph]
      exact hs.1
    refine ⟨w, List.mem_filter.mpr ⟨hwmem, ?_⟩, hwid⟩
    simp [hw1, hwph]

/-- Witness for C3 amended: a committed SYNC of the Ana row over the store
holding Ana preserves her record. -/
theorem claim_C3_sync_deletion_boundary_witness :
    (∀ g2 ∈ resA1sync.1.guests,
      normalize_phone g2.phone ≠ "" ∧
      normalize_phone g2.phone ∈
        ((validate_and_plan [rowAna] (build_db_indexes dbA1).1 (build_db_indexes dbA1).2.1
          (build_db_indexes dbA1).2.2).1.map (fun item => item.data.phone))) ∧
    (∀ g ∈ dbA1.guests,
      normalize_phone g.phone ∈
        ((validate_and_plan [rowAna] (build_db_indexes dbA1).1 (build_db_indexes dbA1).2.1
          (build_db_indexes dbA1).2.2).1.map (fun item => item.data.phone)) →
      ∃ g2 ∈ resA1sync.1.guests, g2.id = g.id) :=
  claim_C3_sync_deletion_boundary genX dbA1 [rowAna] (some "BORRAR TODO") resA1sync
    (import_sync_committed genX dbA1 [rowAna] (some "BORRAR TODO") (by decide))

/-- C1 amended: a dry-run invocation performs no store mutation and returns
exactly the validation-phase report (mode and dry-run flag set, rejected
count and error list from row validation, zero created/updated/skipped
counts); a committed run of the same input and mode returns a report whose
error list extends the dry-run's validation errors with apply-phase
conflicts, so the two reports agree on the validation phase but not in
general. -/
theorem claim_C1_dry_run_is_validation_report (gen : Nat → String) (db : DB) (rows : List Row)
    (mode : import_mode) (confirm_text : Option String)
    (hok : (mode = import_mode.sync ∨ mode = import_mode.replace) →
      confirm_ok confirm_text = true) :
    import_guests_from_csv gen db rows mode true confirm_text =
      Except.ok (db,
        { (validate_and_plan rows (build_db_indexes db).1 (build_db_indexes db).2.1
            (build_db_indexes db).2.2).2 with
          mode := mode.value, dry_run := true }) ∧
    (validate_and_plan rows (build_db_indexes db).1 (build_db_indexes db).2.1
      (build_db_indexes db).2.2).2.created_count = 0 ∧
    (validate_and_plan rows (build_db_indexes db).1 (build_db_indexes db).2.1
      (build_db_indexes db).2.2).2.updated_count = 0 ∧
    (validate_and_plan rows (build_db_indexes db).1 (build_db_indexes db).2.1
      (build_db_indexes db).2.2).2.skipped_count = 0 ∧
    (∀ res : DB × import_report,
      import_guests_from_csv gen db rows mode false confirm_text = Except.ok res →
      (validate_and_plan rows (build_db_indexes db).1 (build_db_indexes db).2.1
        (build_db_indexes db).2.2).2.errors <+: res.2.errors) := by
  have hgate : ¬((mode = import_mode.sync ∨ mode = import_mode.replace) ∧
      confirm_ok confirm_text = false) := by
    rintro ⟨hm, hc⟩
    rw [hok hm] at hc
    cases hc
  refine ⟨?_, ?_, ?_, ?_, ?_⟩
  · unfold import_guests_from_csv
    rw [if_neg hgate]
    rfl
  · exact (validate_loop_apply_counts rows 2 [] [] [] _).1
  · exact (validate_loop_apply_counts rows 2 [] [] [] _).2.1
  · exact (validate_loop_apply_counts rows 2 [] [] [] _).2.2
  · intro res hres
    cases mode with
    | add_only =>
      rw [import_add_only_committed] at hres
      have hr := (Except.ok.inj hres).symm
      subst hr
      exact apply_add_only_errors_mono gen db _
        { (validate_and_plan rows (build_db_indexes db).1 (build_db_indexes db).2.1
            (build_db_indexes db).2.2).2 with
          mode := import_mode.add_only.value, dry_run := false }
    | upsert =>
      rw [import_upsert_committed] at hres
      have hr := (Except.ok.inj hres).symm
      subst hr
      exact apply_upsert_errors_mono gen db _
        { (validate_and_plan rows (build_db_indexes db).1 (build_db_indexes db).2.1
            (build_db_indexes db).2.2).2 with
          mode := import_mode.upsert.value, dry_run := false }
    | sync =>
      rw [import_sync_committed gen db rows confirm_text (hok (Or.inl rfl))] at hres
      have hr := (Except.ok.inj hres).symm
      subst hr
      exact apply_sync_errors_mono gen db _
        { (validate_and_plan rows (build_db_indexes db).1 (build_db_indexes db).2.1
            (build_db_indexes db).2.2).2 with
          mode := import_mode.sync.value, dry_run := false }
    | replace =>
      rw [import_replace_committed gen db rows confirm_text (hok (Or.inr rfl))] at hres
      have hr := (Except.ok.inj hres).symm
      subst hr
      exact apply_replace_errors_mono gen db _
        { (validate_and_plan rows (build_db_indexes db).1 (build_db_indexes db).2.1
            (build_db_indexes db).2.2).2 with
          mode := import_mode.replace.value, dry_run := false }

/-- Witness for C1 amended: the dry run of the Ana row over the empty
store. -/
theorem claim_C1_dry_run_is_validation_report_witness :
    import_guests_from_csv genX { guests := [], nextId := 1 } [rowAna]
        import_mode.add_only true none =
      Except.ok (({ guests := [], nextId := 1 } : DB),
        { (validate_and_plan [rowAna]
            (build_db_indexes { guests := [], nextId := 1 }).1
            (build_db_indexes { guests := [], nextId := 1 }).2.1
            (build_db_indexes { guests := [], nextId := 1 }).2.2).2 with
          mode := import_mode.add_only.value, dry_run := true }) :=
  (claim_C1_dry_run_is_validation_report genX { guests := [], nextId := 1 } [rowAna]
    import_mode.add_only none (fun h => absurd h (by decide))).1

end RSVP
